import Mathlib

/-!
Shallow embedding of `src/main.go` (a Go program wiring two stub booking
handlers into an external agent framework) together with theorems about the
claims of its specification.

The embedding models, faithfully to the Go source:
  * the two tool handlers `bookHotel` and `bookFlight` (lines 33-41 and
    54-62), including their `fmt.Printf` side channel, as functions
    returning a pair of (standard-output text, result struct);
  * the agent configuration tree built in `runAgent` (lines 117-145);
  * the event loop of `run` (lines 172-192), with Go's unguarded index
    `event.Content.Parts[0]` modelled as a panic on an empty part list and
    `log.Fatalf` on a stream error modelled as an immediate process abort;
  * the startup sequence of `runAgent`/`main` (lines 66-171) over an
    abstract environment recording which fallible framework calls fail.
-/

namespace AgentKit

/-! ### Tool handlers (src/main.go lines 23-62) -/

/-- The `tool.Context` value passed by the framework to a handler.  Its
contents are opaque to this program; both handlers ignore it, which the
model makes checkable by quantifying over an arbitrary payload. -/
structure ToolContext where
  payload : String
deriving DecidableEq, Repr

/-- Argument struct of `bookHotel` (src/main.go lines 23-26). -/
structure BookHotelArg where
  location : String
  date : String
deriving DecidableEq, Repr

/-- Result struct of `bookHotel` (src/main.go lines 27-31). -/
structure BookHotelResult where
  status : String
  report : String
  errorMessage : String
deriving DecidableEq, Repr

/-- Argument struct of `bookFlight` (src/main.go lines 43-47). -/
structure BookFlightArg where
  origin : String
  destination : String
  date : String
deriving DecidableEq, Repr

/-- Result struct of `bookFlight` (src/main.go lines 48-52). -/
structure BookFlightResult where
  status : String
  report : String
  errorMessage : String
deriving DecidableEq, Repr

/-- Go's `fmt.Printf("%v", arg)` rendering of a `bookHotelArg` struct:
an opening brace, the field values separated by single spaces, and a
closing brace. -/
def goFmtHotelArg (arg : BookHotelArg) : String :=
  "\x7b" ++ arg.location ++ " " ++ arg.date ++ "\x7d"

/-- Go's `fmt.Printf("%v", arg)` rendering of a `bookFlightArg` struct. -/
def goFmtFlightArg (arg : BookFlightArg) : String :=
  "\x7b" ++ arg.origin ++ " " ++ arg.destination ++ " " ++ arg.date ++ "\x7d"

/-- Handler `bookHotel` (src/main.go lines 33-41).  The first component is
the text the handler writes to standard output (`fmt.Printf("%v", arg)`);
the second is the returned result struct. -/
def bookHotel (_c : ToolContext) (arg : BookHotelArg) :
    String × BookHotelResult :=
  (goFmtHotelArg arg,
   { status := "success"
     report := "Hotel booked in " ++ arg.location ++ " on " ++ arg.date ++
       ". Confirmation: " ++ "CONF_HOTEL_98765"
     errorMessage := "" })

/-- Handler `bookFlight` (src/main.go lines 54-62). -/
def bookFlight (_c : ToolContext) (arg : BookFlightArg) :
    String × BookFlightResult :=
  (goFmtFlightArg arg,
   { status := "success"
     report := "Flight booked from " ++ arg.origin ++ " to " ++
       arg.destination ++ " on " ++ arg.date ++
       ". Confirmation: " ++ "CONF_FLIGHT_12345"
     errorMessage := "" })

/-! ### Agent configuration tree (src/main.go lines 92-145) -/

/-- A tool registered with an agent: the `functiontool.Config` name and
description (src/main.go lines 92-112). -/
structure ToolDef where
  name : String
  description : String
deriving DecidableEq, Repr

/-- An agent configuration as passed to `llmagent.New`: name, description,
instruction (empty when the Go config omits the field), registered tools,
and sub-agents. -/
inductive AgentDef where
  | mk (name description instruction : String)
       (tools : List ToolDef) (subAgents : List AgentDef)

def AgentDef.name : AgentDef → String
  | .mk n _ _ _ _ => n

def AgentDef.description : AgentDef → String
  | .mk _ d _ _ _ => d

def AgentDef.instruction : AgentDef → String
  | .mk _ _ i _ _ => i

def AgentDef.tools : AgentDef → List ToolDef
  | .mk _ _ _ t _ => t

def AgentDef.subAgents : AgentDef → List AgentDef
  | .mk _ _ _ _ s => s

mutual

/-- Names of all proper descendants of an agent (its sub-agents, their
sub-agents, and so on). -/
def AgentDef.descNames : AgentDef → List String
  | .mk _ _ _ _ subs => descNamesList subs

def descNamesList : List AgentDef → List String
  | [] => []
  | a :: as => (a.name :: a.descNames) ++ descNamesList as

end

mutual

/-- Every agent in the tree rooted at the given agent, the root included. -/
def AgentDef.subtreeList : AgentDef → List AgentDef
  | .mk n d i t subs => .mk n d i t subs :: subtreeListList subs

def subtreeListList : List AgentDef → List AgentDef
  | [] => []
  | a :: as => a.subtreeList ++ subtreeListList as

end

/-- The agent graph is acyclic: no agent in the tree has its own name among
the names of its proper descendants, so no agent is its own ancestor. -/
def AgentDef.acyclic (a : AgentDef) : Bool :=
  a.subtreeList.all (fun t => !(t.descNames.contains t.name))

/-- The hotel tool registration (src/main.go lines 92-101). -/
def hotelTool : ToolDef :=
  { name := "bookHotel"
    description := "Use this function to book a hotel. Requires location and date." }

/-- The flight tool registration (src/main.go lines 103-112). -/
def flightTool : ToolDef :=
  { name := "bookFlight"
    description := "Use this function to book a flight. Requires origin, destination, and date." }

/-- The `Booker` agent configuration (src/main.go lines 117-122). -/
def bookingAgent : AgentDef :=
  .mk "Booker"
    "Handles flight and hotel bookings. Use your tools for any booking request."
    "" [hotelTool, flightTool] []

/-- The `Info` agent configuration (src/main.go lines 127-131). -/
def infoAgent : AgentDef :=
  .mk "Info" "Provides general information and answers questions." "" [] []

/-- The `Coordinator` agent configuration (src/main.go lines 136-142). -/
def coordinator : AgentDef :=
  .mk "Coordinator" "Main coordinator."
    "You are an assistant. Delegate booking tasks to Booker and info requests to Info."
    [] [bookingAgent, infoAgent]

/-! ### Run events and the event loop of `run` (src/main.go lines 172-192) -/

/-- One content part of a Run Event; only its text is inspected by `run`. -/
structure Part where
  text : String
deriving DecidableEq, Repr

/-- The content of a Run Event: an ordered list of parts. -/
structure Content where
  parts : List Part
deriving DecidableEq, Repr

/-- One Run Event yielded by `runner.Run`. -/
structure Event where
  content : Content
deriving DecidableEq, Repr

/-- How a run's event loop can abort the whole process: `log.Fatalf` on a
stream error, or a Go runtime panic from the unguarded index
`event.Content.Parts[0]` on an empty part list. -/
inductive RunAbort where
  | fatal (msg : String)
  | panicked
deriving DecidableEq, Repr

/-- The event loop body of `run` (src/main.go lines 183-191), applied to
the finite stream of (event, error) pairs the iterator yields.  Returns
the lines printed to standard output and, when the loop aborted the
process, the abort.  A stream error triggers
`log.Fatalf("ERROR during agent execution: %v", err)`; an event with an
empty `Parts` list panics at `event.Content.Parts[0]`; otherwise the
first part's text is printed when non-empty and later parts are ignored. -/
def processEvents : List (Except String Event) → List String × Option RunAbort
  | [] => ([], none)
  | .error e :: _ =>
      ([], some (.fatal ("ERROR during agent execution: " ++ e)))
  | .ok ev :: rest =>
      match ev.content.parts with
      | [] => ([], some .panicked)
      | p :: _ =>
          let tail := processEvents rest
          ((if p.text ≠ "" then ["Agent Response: " ++ p.text] else []) ++ tail.1,
           tail.2)

/-- The whole of `run` (src/main.go lines 172-192): print the prompt
banner, then run the event loop. -/
def run (prompt : String) (events : List (Except String Event)) :
    List String × Option RunAbort :=
  (("> " ++ prompt) :: (processEvents events).1, (processEvents events).2)

/-! ### Startup sequence and process model (src/main.go lines 66-171) -/

/-- The three hard-coded prompts of `runAgent` (src/main.go lines 165-167). -/
def prompt1 : String := "i want to visit in london?"

def prompt2 : String := "on 2025-11-14"

def prompt3 : String := "also book a hotel for me "

/-- How the process ends: normal return, `main` printing an error to
standard error and calling `os.Exit(1)`, a `log.Fatal`/`log.Fatalf`
(exit status 1, message through the `log` package), or a runtime panic. -/
inductive ProcOutcome where
  | ok
  | errorExit (msg : String)
  | logFatal (msg : String)
  | panicked
deriving DecidableEq, Repr

deriving instance DecidableEq for Except

/-- The abstract environment the program runs in: the outcome of each
fallible external call (`none` means success, `some e` failure with the
framework's error text `e`), the `API_KEY` value visible after the `.env`
load, the session ID the session service generates, and the event stream
each of the three `runner.Run` calls would yield. -/
structure Env where
  dotenvErr : Option String
  apiKey : String
  geminiErr : Option String
  hotelToolErr : Option String
  flightToolErr : Option String
  bookerErr : Option String
  infoErr : Option String
  coordinatorErr : Option String
  runnerErr : Option String
  sessionErr : Option String
  sessionID : String
  stream1 : List (Except String Event)
  stream2 : List (Except String Event)
  stream3 : List (Except String Event)
deriving DecidableEq, Repr

/-- Observable behaviour of one execution: the (session ID, prompt) pairs
submitted to `runner.Run` in order, the lines printed to standard output,
and how the process ended. -/
structure Trace where
  prompts : List (String × String)
  stdout : List String
  outcome : ProcOutcome
deriving DecidableEq, Repr

/-- Mapping a run-loop abort to the process outcome it causes. -/
def abortOutcome : RunAbort → ProcOutcome
  | .fatal m => .logFatal m
  | .panicked => .panicked

/-- The three `run` calls of `runAgent` (src/main.go lines 165-167): each
submits its prompt, then consumes its event stream; an abort ends the
process at once, so later prompts are never submitted. -/
def runAgentRuns (env : Env) : Trace :=
  let sid := env.sessionID
  let r1 := run prompt1 env.stream1
  match r1.2 with
  | some ab => ⟨[(sid, prompt1)], r1.1, abortOutcome ab⟩
  | none =>
    let r2 := run prompt2 env.stream2
    match r2.2 with
    | some ab => ⟨[(sid, prompt1), (sid, prompt2)], r1.1 ++ r2.1, abortOutcome ab⟩
    | none =>
      let r3 := run prompt3 env.stream3
      match r3.2 with
      | some ab =>
          ⟨[(sid, prompt1), (sid, prompt2), (sid, prompt3)],
           r1.1 ++ r2.1 ++ r3.1, abortOutcome ab⟩
      | none =>
          ⟨[(sid, prompt1), (sid, prompt2), (sid, prompt3)],
           r1.1 ++ r2.1 ++ r3.1, .ok⟩

/-- `runAgent` (src/main.go lines 73-171) composed with `main`'s error
handling (lines 66-71): each startup step is tried in source order; an
error from a step before the runner is returned to `main`, which reports
it as `errorExit`; a runner or session creation error hits `log.Fatal`;
otherwise the three runs execute. -/
def runAgent (env : Env) : Trace :=
  match env.dotenvErr with
  | some e => ⟨[], [], .errorExit ("loading .env file: " ++ e)⟩
  | none =>
  if env.apiKey = "" then
    ⟨[], [], .errorExit "API_KEY environment variable is not set"⟩
  else
  match env.geminiErr with
  | some e => ⟨[], [], .errorExit ("creating Gemini model: " ++ e)⟩
  | none =>
  match env.hotelToolErr with
  | some e => ⟨[], [], .errorExit ("creating hotel tool: " ++ e)⟩
  | none =>
  match env.flightToolErr with
  | some e => ⟨[], [], .errorExit ("creating flight tool: " ++ e)⟩
  | none =>
  match env.bookerErr with
  | some e => ⟨[], [], .errorExit ("creating booking agent: " ++ e)⟩
  | none =>
  match env.infoErr with
  | some e => ⟨[], [], .errorExit ("creating info agent: " ++ e)⟩
  | none =>
  match env.coordinatorErr with
  | some e => ⟨[], [], .errorExit ("creating coordinator agent: " ++ e)⟩
  | none =>
  match env.runnerErr with
  | some e => ⟨[], [], .logFatal e⟩
  | none =>
  match env.sessionErr with
  | some e => ⟨[], [], .logFatal e⟩
  | none => runAgentRuns env

/-- `main` (src/main.go lines 66-71).  The Go `main` never reads
`os.Args`, so the model takes the argument vector and ignores it, making
flag-independence a provable statement. -/
def mainGo (_argv : List String) (env : Env) : Trace :=
  runAgent env

/-- The lines `main` writes to standard error: exactly one line
`Error: <msg>` when `runAgent` returned an error (src/main.go line 68);
empty on a normal return.  `log.Fatal` and panic output include wall-clock
timestamps and runtime stack text, which the model leaves unspecified. -/
def mainStderr (env : Env) : Option (List String) :=
  match (runAgent env).outcome with
  | .errorExit m => some ["Error: " ++ m]
  | .ok => some []
  | _ => none

/-- The process exit status: 0 on success, 1 for `os.Exit(1)` after an
error and for `log.Fatal`, 2 for a Go runtime panic. -/
def exitCode (env : Env) : Nat :=
  match (runAgent env).outcome with
  | .ok => 0
  | .errorExit _ => 1
  | .logFatal _ => 1
  | .panicked => 2

/-- All startup steps up to session creation succeed. -/
def startupOk (env : Env) : Prop :=
  env.dotenvErr = none ∧ env.apiKey ≠ "" ∧ env.geminiErr = none ∧
  env.hotelToolErr = none ∧ env.flightToolErr = none ∧
  env.bookerErr = none ∧ env.infoErr = none ∧ env.coordinatorErr = none ∧
  env.runnerErr = none ∧ env.sessionErr = none

instance (env : Env) : Decidable (startupOk env) := by
  unfold startupOk; infer_instance

/-! ### Claims about the tool handlers -/

/-- C1: for every argument pair (location, date) — and every tool context —
`bookHotel` returns a result whose `Status` is `"success"`, whose
`ErrorMessage` is empty, and whose `Report` is
`Hotel booked in <location> on <date>. Confirmation: CONF_HOTEL_98765`, so
the report always contains the literal substring `CONF_HOTEL_98765`. -/
theorem c1_bookHotel_success_report (c : ToolContext) (loc date : String) :
    (bookHotel c ⟨loc, date⟩).2.status = "success" ∧
    (bookHotel c ⟨loc, date⟩).2.errorMessage = "" ∧
    (bookHotel c ⟨loc, date⟩).2.report =
      "Hotel booked in " ++ loc ++ " on " ++ date ++
        ". Confirmation: CONF_HOTEL_98765" ∧
    ∃ pre post,
      (bookHotel c ⟨loc, date⟩).2.report = pre ++ "CONF_HOTEL_98765" ++ post := by
  refine ⟨rfl, rfl, by simp [bookHotel, String.append_assoc], ?_⟩
  exact ⟨"Hotel booked in " ++ loc ++ " on " ++ date ++ ". Confirmation: ", "",
    by simp [bookHotel, String.append_assoc]⟩

/-- C2: for every argument triple (origin, destination, date) — and every
tool context — `bookFlight` returns a result whose `Status` is
`"success"`, whose `ErrorMessage` is empty, and whose `Report` is
`Flight booked from <origin> to <destination> on <date>. Confirmation:
CONF_FLIGHT_12345`, a hard-coded confirmation with no booking, retry, or
validation logic: every input yields the success result. -/
theorem c2_bookFlight_success_report (c : ToolContext)
    (origin dest date : String) :
    (bookFlight c ⟨origin, dest, date⟩).2.status = "success" ∧
    (bookFlight c ⟨origin, dest, date⟩).2.errorMessage = "" ∧
    (bookFlight c ⟨origin, dest, date⟩).2.report =
      "Flight booked from " ++ origin ++ " to " ++ dest ++ " on " ++ date ++
        ". Confirmation: CONF_FLIGHT_12345" := by
  refine ⟨rfl, rfl, by simp [bookFlight, String.append_assoc]⟩

/-- C3 counterexample: the claim says the handlers perform no I/O, but on
the concrete argument (London, 2025-11-14) `bookHotel` writes the `%v`
rendering of its argument struct to standard output (a non-empty string),
and `bookFlight` does the same on its concrete argument. -/
theorem c3_handlers_print_counterexample :
    (bookHotel ⟨"ctx"⟩ ⟨"London", "2025-11-14"⟩).1 ≠ "" ∧
    (bookHotel ⟨"ctx"⟩ ⟨"London", "2025-11-14"⟩).1 =
      "\x7bLondon 2025-11-14\x7d" ∧
    (bookFlight ⟨"ctx"⟩ ⟨"Paris", "London", "2025-11-14"⟩).1 =
      "\x7bParis London 2025-11-14\x7d" := by
  refine ⟨by decide, rfl, rfl⟩

/-- C3 amended: on every input the handlers have exactly one side effect —
printing Go's `%v` rendering of the argument struct to standard output —
and the returned result does not depend on the tool context. -/
theorem c3_handlers_print_only_arg (c c₂ : ToolContext)
    (ha : BookHotelArg) (fa : BookFlightArg) :
    bookHotel c ha = (goFmtHotelArg ha, (bookHotel c₂ ha).2) ∧
    bookFlight c fa = (goFmtFlightArg fa, (bookFlight c₂ fa).2) :=
  ⟨rfl, rfl⟩

/-- C10: `bookHotel` and `bookFlight` are deterministic functions of their
argument struct alone: the `tool.Context` parameter is ignored, so two
calls with equal arguments — under any two contexts — return equal
printed output and equal results. -/
theorem c10_handlers_context_independent (c₁ c₂ : ToolContext)
    (ha : BookHotelArg) (fa : BookFlightArg) :
    bookHotel c₁ ha = bookHotel c₂ ha ∧
    bookFlight c₁ fa = bookFlight c₂ fa :=
  ⟨rfl, rfl⟩

/-! ### Claims about the agent configuration tree -/

/-- C6: the agent graph built at startup is a tree: the Coordinator's
sub-agent list is exactly (Booker, Info), neither Booker nor Info has
sub-agents, and no agent in the tree appears among its own descendants,
so no agent is its own ancestor. -/
theorem c6_agent_graph_is_tree :
    coordinator.subAgents = [bookingAgent, infoAgent] ∧
    bookingAgent.name = "Booker" ∧ infoAgent.name = "Info" ∧
    bookingAgent.subAgents = [] ∧ infoAgent.subAgents = [] ∧
    coordinator.acyclic = true := by
  refine ⟨rfl, rfl, rfl, rfl, rfl, ?_⟩
  simp [AgentDef.acyclic, coordinator, bookingAgent, infoAgent,
    AgentDef.subtreeList, subtreeListList, AgentDef.descNames,
    descNamesList, AgentDef.name, hotelTool, flightTool]

/-- C7: the Coordinator is the degenerate case of Agent: its tool list is
empty and its sub-agent list is non-empty, containing exactly the two
agents named Booker and Info. -/
theorem c7_coordinator_no_tools_two_subagents :
    coordinator.tools = [] ∧
    coordinator.subAgents = [bookingAgent, infoAgent] ∧
    coordinator.subAgents.map AgentDef.name = ["Booker", "Info"] ∧
    coordinator.subAgents ≠ [] := by
  refine ⟨rfl, rfl, rfl, by simp [coordinator, AgentDef.subAgents]⟩

/-! ### Claims about the event loop and the CLI surface -/

/-- The event loop is compositional over a clean first segment: as long as
no abort has happened, the loop's output is the first segment's output
followed by the rest's output, and the rest decides the abort. -/
theorem processEvents_append (xs ys : List (Except String Event))
    (h : (processEvents xs).2 = none) :
    processEvents (xs ++ ys) =
      ((processEvents xs).1 ++ (processEvents ys).1, (processEvents ys).2) := by
  induction xs with
  | nil => simp [processEvents]
  | cons x rest ih =>
    cases x with
    | error e => simp [processEvents] at h
    | ok ev =>
      cases hp : ev.content.parts with
      | nil => simp [processEvents, hp] at h
      | cons p ps =>
        simp only [processEvents, hp] at h
        simp only [List.cons_append, processEvents, hp, ih h]
        simp [ih h, List.append_assoc]

/-- C8: the loop body of `run` indexes `event.Content.Parts[0]` without a
guard: an event whose `Parts` list is empty panics the process (output
empty, no later stream item consumed) rather than being skipped; and for
an event with at least one part, the loop's behaviour is a function of the
first part alone — text in later parts is never printed. -/
theorem c8_unguarded_first_part :
    (∀ (ev : Event) (rest : List (Except String Event)),
       ev.content.parts = [] →
       processEvents (.ok ev :: rest) = ([], some .panicked)) ∧
    (∀ (c₁ c₂ : Content) (rest : List (Except String Event)) (p : Part)
       (ps₁ ps₂ : List Part),
       c₁.parts = p :: ps₁ → c₂.parts = p :: ps₂ →
       processEvents (.ok ⟨c₁⟩ :: rest) = processEvents (.ok ⟨c₂⟩ :: rest)) ∧
    (∀ (ev : Event) (rest : List (Except String Event)) (p : Part)
       (ps : List Part),
       ev.content.parts = p :: ps →
       (processEvents (.ok ev :: rest)).1 =
         (if p.text ≠ "" then ["Agent Response: " ++ p.text] else []) ++
           (processEvents rest).1) := by
  refine ⟨?_, ?_, ?_⟩
  · intro ev rest h
    simp [processEvents, h]
  · intro c₁ c₂ rest p ps₁ ps₂ h₁ h₂
    simp [processEvents, h₁, h₂]
  · intro ev rest p ps h
    simp [processEvents, h]

/-- C8 witness: a concrete event with an empty part list panics without
consuming the rest of the stream, and two concrete events sharing their
first part produce identical loop behaviour. -/
theorem c8_unguarded_first_part_witness :
    processEvents [.ok ⟨⟨[]⟩⟩, .error "later"] = ([], some .panicked) ∧
    processEvents [.ok ⟨⟨[⟨"hi"⟩, ⟨"a"⟩]⟩⟩] =
      processEvents [.ok ⟨⟨[⟨"hi"⟩, ⟨"b"⟩]⟩⟩] :=
  ⟨c8_unguarded_first_part.1 ⟨⟨[]⟩⟩ [.error "later"] rfl,
   c8_unguarded_first_part.2.1 ⟨[⟨"hi"⟩, ⟨"a"⟩]⟩ ⟨[⟨"hi"⟩, ⟨"b"⟩]⟩ []
     ⟨"hi"⟩ [⟨"a"⟩] [⟨"b"⟩] rfl rfl⟩

/-- C9: a stream error makes `run` call `log.Fatalf`, aborting the whole
process: the loop's output is exactly the clean segment's output (no event
after the error is consumed — the items after it do not appear in the
result), and at program level a stream error in the first run leaves the
first prompt as the only one ever submitted. -/
theorem c9_stream_error_is_fatal :
    (∀ (pre post : List (Except String Event)) (e : String),
       (processEvents pre).2 = none →
       processEvents (pre ++ .error e :: post) =
         ((processEvents pre).1,
          some (.fatal ("ERROR during agent execution: " ++ e)))) ∧
    (∀ (env : Env) (pre post : List (Except String Event)) (e : String),
       startupOk env →
       env.stream1 = pre ++ .error e :: post →
       (processEvents pre).2 = none →
       (mainGo [] env).prompts = [(env.sessionID, prompt1)] ∧
       (mainGo [] env).outcome =
         .logFatal ("ERROR during agent execution: " ++ e)) := by
  have key : ∀ (pre post : List (Except String Event)) (e : String),
      (processEvents pre).2 = none →
      processEvents (pre ++ .error e :: post) =
        ((processEvents pre).1,
         some (.fatal ("ERROR during agent execution: " ++ e))) := by
    intro pre post e h
    rw [processEvents_append pre (.error e :: post) h]
    simp [processEvents]
  refine ⟨key, ?_⟩
  intro env pre post e hok hs hpre
  obtain ⟨h₁, h₂, h₃, h₄, h₅, h₆, h₇, h₈, h₉, h₁₀⟩ := hok
  have habort : (processEvents env.stream1).2 =
      some (.fatal ("ERROR during agent execution: " ++ e)) := by
    rw [hs, key pre post e hpre]
  simp [mainGo, runAgent, h₁, h₂, h₃, h₄, h₅, h₆, h₇, h₈, h₉, h₁₀,
    runAgentRuns, run, habort, abortOutcome]

/-- C9 witness: with a concrete environment whose first stream errors
immediately after one clean event, only the first prompt is submitted and
the process dies with the `log.Fatalf` message. -/
theorem c9_stream_error_is_fatal_witness :
    processEvents [.ok ⟨⟨[⟨"hi"⟩]⟩⟩, .error "boom", .ok ⟨⟨[⟨"x"⟩]⟩⟩] =
      (["Agent Response: hi"],
       some (.fatal ("ERROR during agent execution: " ++ "boom"))) ∧
    (mainGo []
        { dotenvErr := none, apiKey := "k", geminiErr := none,
          hotelToolErr := none, flightToolErr := none, bookerErr := none,
          infoErr := none, coordinatorErr := none, runnerErr := none,
          sessionErr := none, sessionID := "sess",
          stream1 := [.ok ⟨⟨[⟨"hi"⟩]⟩⟩, .error "boom", .ok ⟨⟨[⟨"x"⟩]⟩⟩],
          stream2 := [], stream3 := [] }).prompts = [("sess", prompt1)] := by
  constructor
  · exact c9_stream_error_is_fatal.1 [.ok ⟨⟨[⟨"hi"⟩]⟩⟩] [.ok ⟨⟨[⟨"x"⟩]⟩⟩]
      "boom" (by decide)
  · exact (c9_stream_error_is_fatal.2 _ [.ok ⟨⟨[⟨"hi"⟩]⟩⟩] [.ok ⟨⟨[⟨"x"⟩]⟩⟩]
      "boom" (by decide) rfl (by decide)).1

/-- C4: whenever the `.env` load fails or the `API_KEY` value is absent or
empty, the program fails at startup: `runAgent` returns an error, `main`
writes the single line `Error: <msg>` to standard error and exits with
status 1, and no prompt is ever submitted to any agent. -/
theorem c4_missing_api_key_fails_startup (argv : List String) (env : Env)
    (h : env.dotenvErr ≠ none ∨ env.apiKey = "") :
    ∃ m, (mainGo argv env).outcome = .errorExit m ∧
      mainStderr env = some ["Error: " ++ m] ∧
      exitCode env = 1 ∧
      (mainGo argv env).prompts = [] := by
  cases hd : env.dotenvErr with
  | some e =>
    exact ⟨"loading .env file: " ++ e,
      by simp [mainGo, runAgent, hd],
      by simp [mainStderr, runAgent, hd],
      by simp [exitCode, runAgent, hd],
      by simp [mainGo, runAgent, hd]⟩
  | none =>
    have hk : env.apiKey = "" := by
      rcases h with h | h
      · exact absurd hd h
      · exact h
    exact ⟨"API_KEY environment variable is not set",
      by simp [mainGo, runAgent, hd, hk],
      by simp [mainStderr, runAgent, hd, hk],
      by simp [exitCode, runAgent, hd, hk],
      by simp [mainGo, runAgent, hd, hk]⟩

/-- C4 witness: a concrete environment with a successful `.env` load but an
empty `API_KEY` produces the error exit with the expected message, exit
status 1, and no submitted prompts. -/
theorem c4_missing_api_key_fails_startup_witness :
    ∃ m, (mainGo ["-flag"]
        { dotenvErr := none, apiKey := "", geminiErr := none,
          hotelToolErr := none, flightToolErr := none, bookerErr := none,
          infoErr := none, coordinatorErr := none, runnerErr := none,
          sessionErr := none, sessionID := "s",
          stream1 := [], stream2 := [], stream3 := [] }).outcome =
        .errorExit m ∧
      mainStderr
        { dotenvErr := none, apiKey := "", geminiErr := none,
          hotelToolErr := none, flightToolErr := none, bookerErr := none,
          infoErr := none, coordinatorErr := none, runnerErr := none,
          sessionErr := none, sessionID := "s",
          stream1 := [], stream2 := [], stream3 := [] } =
        some ["Error: " ++ m] ∧
      exitCode
        { dotenvErr := none, apiKey := "", geminiErr := none,
          hotelToolErr := none, flightToolErr := none, bookerErr := none,
          infoErr := none, coordinatorErr := none, runnerErr := none,
          sessionErr := none, sessionID := "s",
          stream1 := [], stream2 := [], stream3 := [] } = 1 ∧
      (mainGo ["-flag"]
        { dotenvErr := none, apiKey := "", geminiErr := none,
          hotelToolErr := none, flightToolErr := none, bookerErr := none,
          infoErr := none, coordinatorErr := none, runnerErr := none,
          sessionErr := none, sessionID := "s",
          stream1 := [], stream2 := [], stream3 := [] }).prompts = [] :=
  c4_missing_api_key_fails_startup ["-flag"] _ (Or.inr rfl)

/-- Environment used to refute C5 as stated: startup succeeds and the
single event of the first run carries its only non-empty text in the
second content part, which the loop never inspects. -/
def c5Env : Env :=
  { dotenvErr := none, apiKey := "k", geminiErr := none,
    hotelToolErr := none, flightToolErr := none, bookerErr := none,
    infoErr := none, coordinatorErr := none, runnerErr := none,
    sessionErr := none, sessionID := "s1",
    stream1 := [.ok ⟨⟨[⟨""⟩, ⟨"hidden"⟩]⟩⟩],
    stream2 := [], stream3 := [] }

/-- C5 counterexample: an execution in which a Run Event carries the
non-empty text `"hidden"` (in its second content part) yet no
`Agent Response: hidden` line — indeed no `Agent Response:` line at all —
is printed, so `run` does not print a line for every Run Event carrying
non-empty text. -/
theorem c5_event_text_not_printed_counterexample :
    c5Env.stream1 = [.ok ⟨⟨[⟨""⟩, ⟨"hidden"⟩]⟩⟩] ∧
    (⟨"hidden"⟩ : Part).text ≠ "" ∧
    (mainGo [] c5Env).stdout =
      ["> " ++ prompt1, "> " ++ prompt2, "> " ++ prompt3] ∧
    ("Agent Response: " ++ "hidden") ∉ (mainGo [] c5Env).stdout := by
  refine ⟨rfl, by decide, by decide, by decide⟩

/-- C5 amended: the entry point reads no command-line flags (its trace is
the same under any two argument vectors); when startup succeeds and the
first two runs do not abort, exactly the three hard-coded prompts are
submitted in order, all to the one created session; and each run prints
`Agent Response: <text>` for every consumed Run Event whose FIRST content
part has non-empty text (text carried only in later parts is not
printed — see the counterexample). -/
theorem c5_cli_surface :
    (∀ (argv₁ argv₂ : List String) (env : Env),
       mainGo argv₁ env = mainGo argv₂ env) ∧
    (∀ env : Env, startupOk env →
       (processEvents env.stream1).2 = none →
       (processEvents env.stream2).2 = none →
       (mainGo [] env).prompts =
         [(env.sessionID, prompt1), (env.sessionID, prompt2),
          (env.sessionID, prompt3)]) ∧
    (∀ (xs ys : List (Except String Event)) (ev : Event) (p : Part)
       (ps : List Part),
       (processEvents xs).2 = none →
       ev.content.parts = p :: ps → p.text ≠ "" →
       ("Agent Response: " ++ p.text) ∈
         (processEvents (xs ++ .ok ev :: ys)).1) := by
  refine ⟨fun _ _ _ => rfl, ?_, ?_⟩
  · intro env hok hs1 hs2
    obtain ⟨h₁, h₂, h₃, h₄, h₅, h₆, h₇, h₈, h₉, h₁₀⟩ := hok
    simp only [mainGo, runAgent, h₁, h₃, h₄, h₅, h₆, h₇, h₈, h₉, h₁₀,
      if_neg h₂, runAgentRuns, run, hs1, hs2]
    cases h3 : (processEvents env.stream3).2 <;> simp [h3]
  · intro xs ys ev p ps hxs hp ht
    rw [processEvents_append xs (.ok ev :: ys) hxs]
    simp [processEvents, hp, ht]

/-- C5 amended witness: concrete instantiation of each clause — the trace
is identical under two different argument vectors; a concrete successful
environment submits the three prompts in order to its one session; and a
concrete stream prints the text of an event's first part. -/
theorem c5_cli_surface_witness :
    mainGo ["-a"] c5Env = mainGo ["-b", "-c"] c5Env ∧
    (mainGo [] c5Env).prompts =
      [("s1", prompt1), ("s1", prompt2), ("s1", prompt3)] ∧
    ("Agent Response: " ++ "hello") ∈
      (processEvents ([] ++ .ok ⟨⟨[⟨"hello"⟩]⟩⟩ :: [])).1 :=
  ⟨c5_cli_surface.1 ["-a"] ["-b", "-c"] c5Env,
   c5_cli_surface.2.1 c5Env (by decide) (by decide) (by decide),
   c5_cli_surface.2.2 [] [] ⟨⟨[⟨"hello"⟩]⟩⟩ ⟨"hello"⟩ [] (by decide) rfl
     (by decide)⟩

end AgentKit
